import Mathlib

/-!
Verification of the buffering-and-delivery core of the TempMate12 temperature
logger (src/src/main.cpp) against its natural-language specification.

The embedding is shallow: the global mutable state of the sketch becomes an
explicit `SysState`, the Arduino `loop()` becomes a step function over that
state, and the HTTP transport becomes an oracle `Nat → Reading → Int` giving
the status code returned for the i-th POST of a delivery pass (negative or
zero codes are the transport-error codes of the HTTP client library).
Temperatures are modelled as exact hundredths of a degree (`Int`), since the
only observation the program ever makes of a temperature is its two-decimal
rendering `String(temperature, 2)`.
-/

set_option maxHeartbeats 1000000

namespace TempMate

/-- `struct Reading { String timestamp; float temperature; }` (main.cpp:33-36).
`temperature` is modelled in exact hundredths of a degree. -/
structure Reading where
  timestamp : String
  temperature : Int
deriving DecidableEq

/-- `const char* unihikerServer` (main.cpp:16). -/
def unihikerServer : String := "http://192.168.107.13:5000/log"

/-- `const char* unihikerResetURL` (main.cpp:17). -/
def unihikerResetURL : String := "http://192.168.107.13:5000/reset"

/-- `const long interval = 60000` (main.cpp:28): the sampling period in ms. -/
def interval : Nat := 60000

/-- The literal `30000` retry period of the fallback branch (main.cpp:110). -/
def retryInterval : Nat := 30000

/-- `const unsigned long RESET_PRESS_TIME = 10000` (main.cpp:14). -/
def RESET_PRESS_TIME : Nat := 10000

/-- The decimal digit character for `n % 10`. -/
def digitChar (n : Nat) : Char := Char.ofNat (48 + n % 10)

/-- Model of Arduino `String(x, 2)` (main.cpp:181) on a temperature held as
exact hundredths of a degree: sign, integer part, and exactly two decimals. -/
def formatTemp2 (centi : Int) : String :=
  (if centi < 0 then "-" else "") ++ toString (centi.natAbs / 100) ++ "." ++
    String.mk [digitChar (centi.natAbs / 10), digitChar centi.natAbs]

/-- One outbound HTTP POST as issued by `tryFlushBuffer`. -/
structure PostRequest where
  url : String
  contentType : String
  body : String
deriving DecidableEq

/-- The request built for one reading: URL from `http.begin(unihikerServer)`
(main.cpp:176), content type from `http.addHeader` (main.cpp:177), body
`"timestamp=" + r.timestamp + "&temperature=" + String(r.temperature, 2)`
(main.cpp:181). -/
def mkRequest (r : Reading) : PostRequest :=
  ⟨unihikerServer, "application/x-www-form-urlencoded",
   "timestamp=" ++ r.timestamp ++ "&temperature=" ++ formatTemp2 r.temperature⟩

/-- The POST loop of `tryFlushBuffer` (main.cpp:179-190), posting the readings
from pass position `i` on: returns whether every POST got a code `> 0`,
together with the list of requests actually issued (the failing POST was
issued too; the loop aborts right after it). -/
def flushPass (net : Nat → Reading → Int) : Nat → List Reading → Bool × List PostRequest
  | _, [] => (true, [])
  | i, r :: rs =>
    if net i r ≤ 0 then (false, [mkRequest r])
    else
      let p := flushPass net (i + 1) rs
      (p.1, mkRequest r :: p.2)

/-- `tryFlushBuffer` (main.cpp:169-195): empty buffer returns `true` at once
with no request; otherwise the loop runs, an early `return false` leaves
`readingBuffer` untouched, and only the full pass reaches
`readingBuffer.clear()`. Result: (outcome, new buffer, requests issued). -/
def tryFlushBuffer (net : Nat → Reading → Int) (buf : List Reading) :
    Bool × List Reading × List PostRequest :=
  if buf.isEmpty then (true, buf, [])
  else
    let p := flushPass net 0 buf
    if p.1 then (true, [], p.2) else (false, buf, p.2)

/-- `resetDataOnServer` (main.cpp:45-58): the code of the single
`GET unihikerResetURL`; positive codes succeed iff exactly 200. -/
def resetDataOnServer (code : Int) : Bool :=
  if 0 < code then code == 200 else false

/-- `resetDataOnServer` together with the trace of GET requests it issues:
exactly one, with no retry. -/
def resetDataOnServerT (code : Int) : Bool × List String :=
  (resetDataOnServer code, [unihikerResetURL])

/-- A string in two-decimal fixed format: leading text, a dot, then
exactly two digit characters. -/
def twoDecimalFixed (s : String) : Prop :=
  ∃ a d1 d2, s = a ++ "." ++ String.mk [d1, d2] ∧ d1.isDigit = true ∧ d2.isDigit = true

/-! ### The main loop as a step function

The globals of the sketch (main.cpp:12-13, 27, 31, 37, and the `static
unsigned long lastRetry` of main.cpp:108) become the fields of `SysState`;
one call of `loop()` (main.cpp:82-134) becomes `loopStep`, driven by an
environment `Env` holding this tick's inputs: the value of `millis()`, the
button level, at most one pending inbound request for
`fallbackServer.handleClient()`, the transport oracles, and the sensor
sample. `millis()` arithmetic is `unsigned long` (32-bit) arithmetic. -/

/-- Observable actions of one `loop()` iteration, recorded for the
statements about cadence and responses; they add nothing to the state. -/
inductive Event where
  /-- `resetDataOnServer` was invoked (main.cpp:96) with this GET code and result. -/
  | resetReq (code : Int) (ok : Bool)
  /-- The fallback server answered an inbound request with (status, body). -/
  | served (status : Nat) (body : String)
  /-- A delivery pass ran from the `/flush` handler (main.cpp:212). -/
  | manualAttempt (ok : Bool)
  /-- A delivery pass ran from the 30 s fallback retry (main.cpp:113). -/
  | retryAttempt (ok : Bool)
  /-- A delivery pass ran from the normal-mode tick (main.cpp:130). -/
  | periodicAttempt (ok : Bool)
  /-- `readAndBufferData` appended this reading (main.cpp:164). -/
  | sampled (r : Reading)
deriving DecidableEq

/-- The global mutable state of the sketch. -/
structure SysState where
  /-- `bool buttonWasPressed` (main.cpp:12). -/
  buttonWasPressed : Bool
  /-- `unsigned long pressStartTime` (main.cpp:13). -/
  pressStartTime : Nat
  /-- `bool fallbackMode` (main.cpp:31): `false` is Normal, `true` is Fallback. -/
  fallbackMode : Bool
  /-- `std::vector<Reading> readingBuffer` (main.cpp:37): the Store. -/
  readingBuffer : List Reading
  /-- `unsigned long previousMillis` (main.cpp:27): the sampling timer. -/
  previousMillis : Nat
  /-- `static unsigned long lastRetry` (main.cpp:108): the fallback retry timer. -/
  lastRetry : Nat
  /-- Ghost history field, not in the source: the outcome of the most recent
  completed delivery attempt (`none` before the first one). It is written
  exactly where a `tryFlushBuffer` call returns and read nowhere. -/
  lastOutcome : Option Bool
deriving DecidableEq

/-- The two routes registered on the fallback server (main.cpp:202, 211). -/
inductive ReqPath where
  | root
  | flush
deriving DecidableEq

/-- The inputs consumed by one `loop()` iteration. -/
structure Env where
  /-- `millis()` for this iteration. -/
  now : Nat
  /-- `digitalRead(BUTTON_PIN) == LOW` (main.cpp:83). -/
  buttonPressed : Bool
  /-- The pending inbound request `handleClient` would serve, if any. -/
  inbound : Option ReqPath
  /-- The GET code the collector would return for `/reset` this tick. -/
  resetCode : Int
  /-- Transport oracle for a delivery pass run from the `/flush` handler. -/
  netA : Nat → Reading → Int
  /-- Transport oracle for a delivery pass run from a timer. -/
  netB : Nat → Reading → Int
  /-- `sensors.getTempCByIndex(0)` (main.cpp:160), in hundredths. -/
  sensorTemp : Int
  /-- `getFormattedTimestamp()` (main.cpp:162). -/
  timestampNow : String

/-- `2^32`: the modulus of `unsigned long` on the ESP32. -/
def UL32 : Nat := 4294967296

/-- Truncation to `unsigned long`. -/
def m32 (n : Nat) : Nat := n % UL32

/-- Unsigned 32-bit subtraction `a - b`, as in `now - lastRetry`. -/
def usub (a b : Nat) : Nat := (m32 a + (UL32 - m32 b)) % UL32

/-- The `/flush` handler body (main.cpp:211-220): run a delivery pass; reply
status 200 either way, with a plain-text body reporting the outcome; on
success also leave fallback mode (the server is stopped there too, which the
state models by `fallbackMode := false`). Returns ((status, body), state). -/
def flushHandler (net : Nat → Reading → Int) (s : SysState) :
    (Nat × String) × SysState :=
  let p := tryFlushBuffer net s.readingBuffer
  if p.1 then
    ((200, "Flush succeeded, exiting fallback mode."),
     { s with readingBuffer := p.2.1, fallbackMode := false, lastOutcome := some true })
  else
    ((200, "Flush failed, still in fallback mode."),
     { s with readingBuffer := p.2.1, lastOutcome := some false })

/-- The `/` handler body (main.cpp:202-209): the HTML status page. -/
def rootHandler (s : SysState) : Nat × String :=
  (200,
   "<html><head><title>Fallback Mode</title></head><body>" ++
   "<h1>Fallback Mode</h1>" ++
   "<p>Unable to reach UNIHIKER server. Buffer size: " ++
   toString s.readingBuffer.length ++ "</p>" ++
   "<p>Please wait or try /flush.</p>" ++
   "</body></html>")

/-- `fallbackServer.handleClient()` (main.cpp:107): serve the pending inbound
request, if any, through the registered route handlers. -/
def handleClientStep (e : Env) (s : SysState) : SysState × List Event :=
  match e.inbound with
  | none => (s, [])
  | some ReqPath.root => (s, [Event.served (rootHandler s).1 (rootHandler s).2])
  | some ReqPath.flush =>
      let h := flushHandler e.netA s
      (h.2, [Event.served h.1.1 h.1.2,
             Event.manualAttempt (tryFlushBuffer e.netA s.readingBuffer).1])

/-- The button block at the top of `loop()` (main.cpp:83-104): edge detection
on the button level; on release after at least `RESET_PRESS_TIME` ms it
calls `resetDataOnServer`, which touches no other state. -/
def buttonStep (e : Env) (s : SysState) : SysState × List Event :=
  if e.buttonPressed && !s.buttonWasPressed then
    ({ s with buttonWasPressed := true, pressStartTime := m32 e.now }, [])
  else if !e.buttonPressed && s.buttonWasPressed then
    let s1 := { s with buttonWasPressed := false }
    if usub e.now s.pressStartTime ≥ RESET_PRESS_TIME then
      (s1, [Event.resetReq e.resetCode (resetDataOnServer e.resetCode)])
    else (s1, [])
  else (s, [])

/-- The 30 s retry block of the fallback branch (main.cpp:110-118):
`lastRetry` is reset first, then the pass runs; on success fallback mode is
left. -/
def retryStep (e : Env) (s : SysState) : SysState × List Event :=
  if retryInterval ≤ usub e.now s.lastRetry then
    let s1 := { s with lastRetry := m32 e.now }
    let p := tryFlushBuffer e.netB s1.readingBuffer
    if p.1 then
      ({ s1 with readingBuffer := p.2.1, fallbackMode := false,
                 lastOutcome := some true },
       [Event.retryAttempt true])
    else
      ({ s1 with readingBuffer := p.2.1, lastOutcome := some false },
       [Event.retryAttempt false])
  else (s, [])

/-- The sampling block of the fallback branch (main.cpp:119-122), i.e.
`readAndBufferData` (main.cpp:158-167) behind the 60 s timer: appends exactly
one reading at the end of the Store. -/
def sampleStep (e : Env) (s : SysState) : SysState × List Event :=
  if interval ≤ usub e.now s.previousMillis then
    let r : Reading := ⟨e.timestampNow, e.sensorTemp⟩
    ({ s with previousMillis := m32 e.now, readingBuffer := s.readingBuffer ++ [r] },
     [Event.sampled r])
  else (s, [])

/-- The normal-mode tick (main.cpp:126-133): on the 60 s timer, sample, then
run a delivery pass; on failure `startFallbackServer` (main.cpp:197-223)
sets `fallbackMode = true` and registers the route handlers. -/
def normalTick (e : Env) (s : SysState) : SysState × List Event :=
  if interval ≤ usub e.now s.previousMillis then
    let r : Reading := ⟨e.timestampNow, e.sensorTemp⟩
    let s1 := { s with previousMillis := m32 e.now,
                       readingBuffer := s.readingBuffer ++ [r] }
    let p := tryFlushBuffer e.netB s1.readingBuffer
    if p.1 then
      ({ s1 with readingBuffer := p.2.1, lastOutcome := some true },
       [Event.sampled r, Event.periodicAttempt true])
    else
      ({ s1 with readingBuffer := p.2.1, fallbackMode := true,
                 lastOutcome := some false },
       [Event.sampled r, Event.periodicAttempt false])
  else (s, [])

/-- The fallback branch of `loop()` (main.cpp:106-124): handle one inbound
request, then the 30 s retry timer, then the 60 s sampling timer, then
return. -/
def fallbackTick (e : Env) (s : SysState) : SysState × List Event :=
  let h := handleClientStep e s
  let rt := retryStep e h.1
  let sm := sampleStep e rt.1
  (sm.1, h.2 ++ rt.2 ++ sm.2)

/-- One `loop()` iteration (main.cpp:82-134). -/
def loopStep (e : Env) (s : SysState) : SysState × List Event :=
  let b := buttonStep e s
  if b.1.fallbackMode then
    let f := fallbackTick e b.1
    (f.1, b.2 ++ f.2)
  else
    let n := normalTick e b.1
    (n.1, b.2 ++ n.2)

/-- The state right after `setup()` (main.cpp:60-80): Normal mode, empty
Store, timers at 0, no delivery attempt completed yet. -/
def initState : SysState :=
  ⟨false, 0, false, [], 0, 0, none⟩

/-- States reachable by running `loop()` from the initial state under any
sequence of environments. -/
inductive Reachable : SysState → Prop where
  | init : Reachable initState
  | step : ∀ {s} (e : Env), Reachable s → Reachable (loopStep e s).1

/-- The mode-machine invariant: Fallback exactly when the most recent
completed delivery attempt failed. -/
def ModeInv (s : SysState) : Prop :=
  s.fallbackMode = true ↔ s.lastOutcome = some false

/-! ### Basic facts about a delivery pass -/

theorem flushPass_true_iff (net : Nat → Reading → Int) :
    ∀ (l : List Reading) (i : Nat),
      (flushPass net i l).1 = true ↔ ∀ j (h : j < l.length), 0 < net (i + j) (l.get ⟨j, h⟩)
  | [], i => by simp [flushPass]
  | r :: rs, i => by
    simp only [flushPass]
    by_cases hc : net i r ≤ 0
    · simp only [hc, if_true]
      constructor
      · intro h; exact absurd h (by simp)
      · intro h
        have := h 0 (by simp)
        simp only [Nat.add_zero, List.get] at this
        omega
    · simp only [hc, if_false]
      rw [flushPass_true_iff net rs (i + 1)]
      constructor
      · intro h j hj
        match j with
        | 0 => simpa using (by omega : 0 < net i r)
        | j + 1 =>
          have := h j (by simpa using Nat.lt_of_succ_lt_succ hj)
          simpa [Nat.add_assoc, Nat.add_comm 1 j] using this
      · intro h j hj
        have := h (j + 1) (by simpa using Nat.succ_lt_succ hj)
        simpa [Nat.add_assoc, Nat.add_comm 1 j] using this

theorem flushPass_requests_of_true (net : Nat → Reading → Int) :
    ∀ (l : List Reading) (i : Nat),
      (flushPass net i l).1 = true → (flushPass net i l).2 = l.map mkRequest
  | [], i => by simp [flushPass]
  | r :: rs, i => by
    simp only [flushPass]
    by_cases hc : net i r ≤ 0
    · simp [hc]
    · simp only [hc, if_false, List.map]
      intro h
      rw [flushPass_requests_of_true net rs (i + 1) h]

theorem flushPass_requests_take (net : Nat → Reading → Int) :
    ∀ (l : List Reading) (i : Nat),
      ∃ k, k ≤ l.length ∧ (l ≠ [] → 1 ≤ k) ∧
        (flushPass net i l).2 = (l.take k).map mkRequest ∧
        ((flushPass net i l).1 = true → k = l.length)
  | [], i => ⟨0, by simp [flushPass]⟩
  | r :: rs, i => by
    by_cases hc : net i r ≤ 0
    · refine ⟨1, by simp, fun _ => le_refl 1, ?_, ?_⟩
      · simp [flushPass, hc]
      · simp [flushPass, hc]
    · obtain ⟨k, hk, _, hreq, hlen⟩ := flushPass_requests_take net rs (i + 1)
      refine ⟨k + 1, by simpa using Nat.succ_le_succ hk, fun _ => by omega, ?_, ?_⟩
      · simp [flushPass, hc, hreq]
      · intro h
        simp only [flushPass, hc, if_false] at h
        simp [hlen h]

theorem tryFlush_success_eq (net : Nat → Reading → Int) (buf : List Reading) :
    (tryFlushBuffer net buf).1 = (flushPass net 0 buf).1 := by
  by_cases he : buf.isEmpty
  · rw [List.isEmpty_iff] at he
    simp [tryFlushBuffer, he, flushPass]
  · by_cases hp : (flushPass net 0 buf).1 = true
    · simp [tryFlushBuffer, he, hp]
    · simp only [Bool.not_eq_true] at hp
      simp [tryFlushBuffer, he, hp]

theorem tryFlush_requests_eq (net : Nat → Reading → Int) (buf : List Reading) :
    (tryFlushBuffer net buf).2.2 = (flushPass net 0 buf).2 := by
  by_cases he : buf.isEmpty
  · rw [List.isEmpty_iff] at he
    simp [tryFlushBuffer, he, flushPass]
  · by_cases hp : (flushPass net 0 buf).1 = true
    · simp [tryFlushBuffer, he, hp]
    · simp only [Bool.not_eq_true] at hp
      simp [tryFlushBuffer, he, hp]

theorem flushPass_fail_at (net : Nat → Reading → Int) :
    ∀ (l : List Reading) (i k : Nat) (hk : k < l.length),
      (∀ j (h : j < k), 0 < net (i + j) (l.get ⟨j, h.trans hk⟩)) →
      net (i + k) (l.get ⟨k, hk⟩) ≤ 0 →
      flushPass net i l = (false, (l.take (k + 1)).map mkRequest)
  | [], _, k, hk => by simp at hk
  | r :: rs, i, 0, hk => by
    intro _ hfail
    simp only [Nat.add_zero, List.get] at hfail
    simp [flushPass, hfail]
  | r :: rs, i, k + 1, hk => by
    intro hok hfail
    have h0 : 0 < net i r := by simpa using hok 0 (Nat.succ_pos k)
    have hk' : k < rs.length := Nat.lt_of_succ_lt_succ hk
    have hok' : ∀ j (h : j < k), 0 < net (i + 1 + j) (rs.get ⟨j, h.trans hk'⟩) := by
      intro j h
      have := hok (j + 1) (Nat.succ_lt_succ h)
      simpa [Nat.add_assoc, Nat.add_comm 1 j] using this
    have hfail' : net (i + 1 + k) (rs.get ⟨k, hk'⟩) ≤ 0 := by
      simpa [Nat.add_assoc, Nat.add_comm 1 k] using hfail
    have ih := flushPass_fail_at net rs (i + 1) k hk' hok' hfail'
    have hnot : ¬ net i r ≤ 0 := by omega
    simp [flushPass, hnot, ih]

theorem flushPass_sends_through (net : Nat → Reading → Int) :
    ∀ (l : List Reading) (i k : Nat) (hk : k < l.length),
      (∀ j (h : j < k), 0 < net (i + j) (l.get ⟨j, h.trans hk⟩)) →
      ∃ t, (flushPass net i l).2 = (l.take (k + 1)).map mkRequest ++ t
  | [], _, k, hk => by simp at hk
  | r :: rs, i, 0, _ => by
    intro _
    by_cases hc : net i r ≤ 0
    · exact ⟨[], by simp [flushPass, hc]⟩
    · exact ⟨(flushPass net (i + 1) rs).2, by simp [flushPass, hc]⟩
  | r :: rs, i, k + 1, hk => by
    intro hok
    have h0 : 0 < net i r := by simpa using hok 0 (Nat.succ_pos k)
    have hk' : k < rs.length := Nat.lt_of_succ_lt_succ hk
    have hok' : ∀ j (h : j < k), 0 < net (i + 1 + j) (rs.get ⟨j, h.trans hk'⟩) := by
      intro j h
      have := hok (j + 1) (Nat.succ_lt_succ h)
      simpa [Nat.add_assoc, Nat.add_comm 1 j] using this
    obtain ⟨t, ht⟩ := flushPass_sends_through net rs (i + 1) k hk' hok'
    have hnot : ¬ net i r ≤ 0 := by omega
    exact ⟨t, by simp [flushPass, hnot, ht]⟩

theorem digitChar_isDigit (n : Nat) : (digitChar n).isDigit = true := by
  unfold digitChar
  have h : n % 10 < 10 := Nat.mod_lt _ (by omega)
  generalize n % 10 = m at h ⊢
  interval_cases m <;> decide

theorem formatTemp2_twoDecimal (c : Int) : twoDecimalFixed (formatTemp2 c) :=
  ⟨(if c < 0 then "-" else "") ++ toString (c.natAbs / 100),
   digitChar (c.natAbs / 10), digitChar c.natAbs, rfl,
   digitChar_isDigit _, digitChar_isDigit _⟩

theorem tryFlush_buf_cases (net : Nat → Reading → Int) (buf : List Reading) :
    ((tryFlushBuffer net buf).1 = true ∧ (tryFlushBuffer net buf).2.1 = []) ∨
    ((tryFlushBuffer net buf).1 = false ∧ (tryFlushBuffer net buf).2.1 = buf) := by
  by_cases he : buf.isEmpty
  · left
    rw [List.isEmpty_iff] at he
    simp [tryFlushBuffer, he]
  · by_cases hp : (flushPass net 0 buf).1 = true
    · left; simp [tryFlushBuffer, he, hp]
    · right
      simp only [Bool.not_eq_true] at hp
      simp [tryFlushBuffer, he, hp]

theorem tryFlush_success_buf (net : Nat → Reading → Int) (buf : List Reading)
    (h : (tryFlushBuffer net buf).1 = true) : (tryFlushBuffer net buf).2.1 = [] := by
  rcases tryFlush_buf_cases net buf with ⟨_, hb⟩ | ⟨hf, _⟩
  · exact hb
  · rw [h] at hf; cases hf

theorem tryFlush_fail_buf (net : Nat → Reading → Int) (buf : List Reading)
    (h : (tryFlushBuffer net buf).1 = false) : (tryFlushBuffer net buf).2.1 = buf := by
  rcases tryFlush_buf_cases net buf with ⟨ht, _⟩ | ⟨_, hb⟩
  · rw [h] at ht; cases ht
  · exact hb

theorem tryFlush_nil (net : Nat → Reading → Int) :
    tryFlushBuffer net [] = (true, [], []) := rfl

/-- Claim C1 (all-or-nothing clear): after one call of `tryFlushBuffer`, the
Store is either empty with outcome `Success` (every POST of the pass got a
positive status code) or exactly the input list — same length, same order —
with outcome `Failure`; it is never partially trimmed, even though some
requests of the failing pass were already issued. -/
theorem C1_all_or_nothing (net : Nat → Reading → Int) (buf : List Reading) :
    ((tryFlushBuffer net buf).1 = true ∧ (tryFlushBuffer net buf).2.1 = []) ∨
    ((tryFlushBuffer net buf).1 = false ∧ (tryFlushBuffer net buf).2.1 = buf) :=
  tryFlush_buf_cases net buf

/-- Claim C6 (empty-store short-circuit): on an empty Store, `tryFlushBuffer`
returns `Success` at once, issues no transport request, and leaves the Store
(the only state the function touches — it never reads or writes the mode)
unchanged. -/
theorem C6_empty_short_circuit (net : Nat → Reading → Int) :
    tryFlushBuffer net [] = (true, [], []) := rfl

/-- Claim C2 as stated is false on the code: a reply with status code 0 — a
non-negative status code — is judged a failure (the source tests
`httpCode <= 0`, main.cpp:183), the pass aborts instead of proceeding to the
next Reading (only one request is issued for a two-element Store), contrary
to "every reply with a non-negative status code ... is treated as success
for that item and the pass proceeds to the next Reading". -/
theorem C2_counterexample :
    ¬ ((0 : Int) < 0) ∧
    (tryFlushBuffer (fun _ _ => (0 : Int)) [⟨"T0", 2150⟩, ⟨"T1", 2175⟩]).1 = false ∧
    ((tryFlushBuffer (fun _ _ => (0 : Int)) [⟨"T0", 2150⟩, ⟨"T1", 2175⟩]).2.2).length = 1 :=
  ⟨by decide, by decide, by decide⟩

/-- Claim C2 (amended): a transmission of one Reading is judged failed iff the
transport reports a non-positive status code (`httpCode <= 0`); every reply
with a positive status code, including non-2xx HTTP responses such as 404,
is treated as success for that item and the pass proceeds to the next
Reading — the whole pass succeeds iff every item's code is positive. -/
theorem C2_per_item_judgment (net : Nat → Reading → Int) (buf : List Reading) :
    ((tryFlushBuffer net buf).1 = true ↔
      ∀ i (h : i < buf.length), 0 < net i (buf.get ⟨i, h⟩)) ∧
    (∀ i (r : Reading) rs, 0 < net i r →
      flushPass net i (r :: rs) =
        ((flushPass net (i + 1) rs).1, mkRequest r :: (flushPass net (i + 1) rs).2)) ∧
    (∀ i (r : Reading) rs, net i r ≤ 0 →
      flushPass net i (r :: rs) = (false, [mkRequest r])) := by
  refine ⟨?_, ?_, ?_⟩
  · rw [tryFlush_success_eq, flushPass_true_iff]
    constructor
    · intro h i hi; simpa using h i hi
    · intro h j hj; simpa using h j hj
  · intro i r rs h
    have hnot : ¬ net i r ≤ 0 := by omega
    simp [flushPass, hnot]
  · intro i r rs h
    simp [flushPass, h]

theorem C2_per_item_judgment_witness :
    (tryFlushBuffer (fun _ _ => (404 : Int)) [⟨"T0", 2150⟩, ⟨"T1", 2175⟩]).1 = true :=
  ((C2_per_item_judgment (fun _ _ => (404 : Int)) [⟨"T0", 2150⟩, ⟨"T1", 2175⟩]).1).mpr
    (fun _ _ => by decide)

/-- Claim C3 (delivery protocol steps): on a non-empty Store, the requests
issued by one `tryFlushBuffer` call are exactly one POST per Reading of some
non-empty prefix of the Store, in Store order (all of them on a successful
pass — not a single batched request), each with the collector /log URL,
form-encoded content type, and body
`timestamp=<string>&temperature=<value>` with the temperature rendered in
two-decimal fixed format. -/
theorem C3_protocol (net : Nat → Reading → Int) (buf : List Reading) (hne : buf ≠ []) :
    (∃ k, 1 ≤ k ∧ k ≤ buf.length ∧
      (tryFlushBuffer net buf).2.2 = (buf.take k).map mkRequest ∧
      ((tryFlushBuffer net buf).1 = true → k = buf.length)) ∧
    (∀ r : Reading, mkRequest r =
      ⟨unihikerServer, "application/x-www-form-urlencoded",
       "timestamp=" ++ r.timestamp ++ "&temperature=" ++ formatTemp2 r.temperature⟩) ∧
    (∀ c : Int, twoDecimalFixed (formatTemp2 c)) := by
  refine ⟨?_, fun _ => rfl, formatTemp2_twoDecimal⟩
  obtain ⟨k, hk, h1, hreq, hfull⟩ := flushPass_requests_take net buf 0
  refine ⟨k, h1 hne, hk, ?_, ?_⟩
  · rw [tryFlush_requests_eq]; exact hreq
  · intro h
    rw [tryFlush_success_eq] at h
    exact hfull h

theorem C3_protocol_witness :
    (tryFlushBuffer (fun _ _ => (200 : Int)) [⟨"T0", 2150⟩]).2.2 =
      [mkRequest ⟨"T0", 2150⟩] := by
  obtain ⟨⟨k, h1, hk, hreq, _⟩, -, -⟩ :=
    C3_protocol (fun _ _ => (200 : Int)) [⟨"T0", 2150⟩] (by decide)
  have hk1 : k = 1 := le_antisymm hk h1
  subst hk1
  simpa using hreq

/-- Claim C5 (duplicate-redelivery gap): if pass N gets positive codes on
items 0..k-1 and a transport error on item k, then pass N fails with the
Store unchanged after having issued requests for items 0..k; and any
following pass N+1 whose transport again accepts items 0..k-1 re-issues the
requests for items 0..k from the beginning — the duplication occurs. -/
theorem C5_duplicate_redelivery (net1 net2 : Nat → Reading → Int)
    (buf : List Reading) (k : Nat) (hk : k < buf.length)
    (hok : ∀ i (h : i < k), 0 < net1 i (buf.get ⟨i, h.trans hk⟩))
    (hfail : net1 k (buf.get ⟨k, hk⟩) ≤ 0)
    (hok2 : ∀ i (h : i < k), 0 < net2 i (buf.get ⟨i, h.trans hk⟩)) :
    (tryFlushBuffer net1 buf).1 = false ∧
    (tryFlushBuffer net1 buf).2.1 = buf ∧
    (tryFlushBuffer net1 buf).2.2 = (buf.take (k + 1)).map mkRequest ∧
    ∃ t, (tryFlushBuffer net2 buf).2.2 = (buf.take (k + 1)).map mkRequest ++ t := by
  have hpass := flushPass_fail_at net1 buf 0 k hk (by simpa using hok) (by simpa using hfail)
  have hne : ¬ buf.isEmpty := by
    rcases buf with _ | ⟨r, rs⟩
    · simp at hk
    · simp
  refine ⟨?_, ?_, ?_, ?_⟩
  · rw [tryFlush_success_eq, hpass]
  · simp [tryFlushBuffer, hne, hpass]
  · rw [tryFlush_requests_eq, hpass]
  · obtain ⟨t, ht⟩ := flushPass_sends_through net2 buf 0 k hk (by simpa using hok2)
    exact ⟨t, by rw [tryFlush_requests_eq, ht]⟩

theorem C5_duplicate_redelivery_witness :
    (tryFlushBuffer (fun i _ => if i = 0 then (200 : Int) else -1)
        [⟨"T0", 2150⟩, ⟨"T1", 2175⟩]).2.2 =
      ([⟨"T0", 2150⟩, ⟨"T1", 2175⟩].map mkRequest) ∧
    ∃ t, (tryFlushBuffer (fun _ _ => (200 : Int)) [⟨"T0", 2150⟩, ⟨"T1", 2175⟩]).2.2 =
      ([⟨"T0", 2150⟩, ⟨"T1", 2175⟩].map mkRequest) ++ t := by
  obtain ⟨-, -, hreq, ht⟩ :=
    C5_duplicate_redelivery (fun i _ => if i = 0 then (200 : Int) else -1)
      (fun _ _ => (200 : Int)) [⟨"T0", 2150⟩, ⟨"T1", 2175⟩] 1 (by decide)
      (fun i h => by
        have hi : i = 0 := by omega
        subst hi
        show (0 : Int) < if (0 : Nat) = 0 then 200 else -1
        norm_num)
      (by decide)
      (fun i h => by
        have hi : i = 0 := by omega
        subst hi
        show (0 : Int) < 200
        norm_num)
  constructor
  · simpa using hreq
  · simpa using ht

/-! ### Structural facts about the loop stages -/

theorem buttonStep_fields (e : Env) (s : SysState) :
    (buttonStep e s).1.fallbackMode = s.fallbackMode ∧
    (buttonStep e s).1.lastOutcome = s.lastOutcome ∧
    (buttonStep e s).1.readingBuffer = s.readingBuffer ∧
    (buttonStep e s).1.lastRetry = s.lastRetry ∧
    (buttonStep e s).1.previousMillis = s.previousMillis := by
  by_cases h1 : e.buttonPressed && !s.buttonWasPressed
  · simp [buttonStep, h1]
  · by_cases h2 : !e.buttonPressed && s.buttonWasPressed
    · by_cases h3 : RESET_PRESS_TIME ≤ usub e.now s.pressStartTime
      · simp [buttonStep, h1, h2, h3]
      · simp [buttonStep, h1, h2, h3]
    · simp [buttonStep, h1, h2]

theorem buttonStep_events (e : Env) (s : SysState) :
    (buttonStep e s).2 = [] ∨
    ∃ c ok, (buttonStep e s).2 = [Event.resetReq c ok] := by
  by_cases h1 : e.buttonPressed && !s.buttonWasPressed
  · left; simp [buttonStep, h1]
  · by_cases h2 : !e.buttonPressed && s.buttonWasPressed
    · by_cases h3 : RESET_PRESS_TIME ≤ usub e.now s.pressStartTime
      · right; exact ⟨e.resetCode, resetDataOnServer e.resetCode, by simp [buttonStep, h1, h2, h3]⟩
      · left; simp [buttonStep, h1, h2, h3]
    · left; simp [buttonStep, h1, h2]

theorem handleClientStep_fields (e : Env) (s : SysState) :
    (handleClientStep e s).1.lastRetry = s.lastRetry ∧
    (handleClientStep e s).1.previousMillis = s.previousMillis := by
  cases hin : e.inbound with
  | none => simp [handleClientStep, hin]
  | some p =>
    cases p with
    | root => simp [handleClientStep, hin]
    | flush =>
      by_cases hp : (tryFlushBuffer e.netA s.readingBuffer).1 = true
      · simp [handleClientStep, hin, flushHandler, hp]
      · simp only [Bool.not_eq_true] at hp
        simp [handleClientStep, hin, flushHandler, hp]

theorem handleClientStep_inv (e : Env) (s : SysState)
    (hinv : ModeInv s) (hmode : s.fallbackMode = true) :
    ModeInv (handleClientStep e s).1 ∧
    ((handleClientStep e s).1.fallbackMode = true ∨
     (handleClientStep e s).1.readingBuffer = []) := by
  cases hin : e.inbound with
  | none => simpa [handleClientStep, hin] using ⟨hinv, Or.inl hmode⟩
  | some p =>
    cases p with
    | root => simpa [handleClientStep, hin] using ⟨hinv, Or.inl hmode⟩
    | flush =>
      by_cases hp : (tryFlushBuffer e.netA s.readingBuffer).1 = true
      · have hb := tryFlush_success_buf e.netA s.readingBuffer hp
        constructor
        · simp [handleClientStep, hin, flushHandler, hp, ModeInv]
        · right; simp [handleClientStep, hin, flushHandler, hp, hb]
      · simp only [Bool.not_eq_true] at hp
        constructor
        · simp [handleClientStep, hin, flushHandler, hp, ModeInv, hmode]
        · left; simp [handleClientStep, hin, flushHandler, hp, hmode]

theorem retryStep_fields (e : Env) (s : SysState) :
    (retryStep e s).1.previousMillis = s.previousMillis := by
  by_cases ht : retryInterval ≤ usub e.now s.lastRetry
  · by_cases hp : (tryFlushBuffer e.netB s.readingBuffer).1 = true
    · simp [retryStep, ht, hp]
    · simp only [Bool.not_eq_true] at hp
      simp [retryStep, ht, hp]
  · simp [retryStep, ht]

theorem retryStep_inv (e : Env) (s : SysState)
    (hinv : ModeInv s)
    (hdisj : s.fallbackMode = true ∨ s.readingBuffer = []) :
    ModeInv (retryStep e s).1 := by
  by_cases ht : retryInterval ≤ usub e.now s.lastRetry
  · by_cases hp : (tryFlushBuffer e.netB s.readingBuffer).1 = true
    · simp [retryStep, ht, hp, ModeInv]
    · have hmode : s.fallbackMode = true := by
        rcases hdisj with h | h
        · exact h
        · exfalso
          rw [h, tryFlush_nil] at hp
          exact hp rfl
      simp only [Bool.not_eq_true] at hp
      simp [retryStep, ht, hp, ModeInv, hmode]
  · simpa [retryStep, ht] using hinv

theorem sampleStep_fields (e : Env) (s : SysState) :
    (sampleStep e s).1.fallbackMode = s.fallbackMode ∧
    (sampleStep e s).1.lastOutcome = s.lastOutcome ∧
    (sampleStep e s).1.lastRetry = s.lastRetry := by
  by_cases ht : interval ≤ usub e.now s.previousMillis
  · simp [sampleStep, ht]
  · simp [sampleStep, ht]

theorem normalTick_inv (e : Env) (s : SysState)
    (hinv : ModeInv s) (hmode : s.fallbackMode = false) :
    ModeInv (normalTick e s).1 := by
  by_cases ht : interval ≤ usub e.now s.previousMillis
  · by_cases hp : (tryFlushBuffer e.netB
        (s.readingBuffer ++ [⟨e.timestampNow, e.sensorTemp⟩])).1 = true
    · simp [normalTick, ht, hp, ModeInv, hmode]
    · simp only [Bool.not_eq_true] at hp
      simp [normalTick, ht, hp, ModeInv]
  · simpa [normalTick, ht] using hinv

theorem loopStep_fst (e : Env) (s : SysState) :
    (loopStep e s).1 =
      if (buttonStep e s).1.fallbackMode then (fallbackTick e (buttonStep e s).1).1
      else (normalTick e (buttonStep e s).1).1 := by
  unfold loopStep
  by_cases h : (buttonStep e s).1.fallbackMode <;> simp [h]

theorem loopStep_snd (e : Env) (s : SysState) :
    (loopStep e s).2 =
      if (buttonStep e s).1.fallbackMode then
        (buttonStep e s).2 ++ (fallbackTick e (buttonStep e s).1).2
      else (buttonStep e s).2 ++ (normalTick e (buttonStep e s).1).2 := by
  unfold loopStep
  by_cases h : (buttonStep e s).1.fallbackMode <;> simp [h]

theorem fallbackTick_fst (e : Env) (s : SysState) :
    (fallbackTick e s).1 =
      (sampleStep e (retryStep e (handleClientStep e s).1).1).1 := rfl

theorem fallbackTick_snd (e : Env) (s : SysState) :
    (fallbackTick e s).2 =
      (handleClientStep e s).2 ++ (retryStep e (handleClientStep e s).1).2 ++
      (sampleStep e (retryStep e (handleClientStep e s).1).1).2 := rfl

theorem loopStep_inv (e : Env) (s : SysState) (hinv : ModeInv s) :
    ModeInv (loopStep e s).1 := by
  have hb := buttonStep_fields e s
  have hinvb : ModeInv (buttonStep e s).1 := by
    unfold ModeInv at hinv ⊢
    rw [hb.1, hb.2.1]
    exact hinv
  rw [loopStep_fst]
  by_cases hm : (buttonStep e s).1.fallbackMode = true
  · rw [if_pos hm, fallbackTick_fst]
    have h1 := handleClientStep_inv e (buttonStep e s).1 hinvb hm
    have h2 := retryStep_inv e _ h1.1 h1.2
    have hs := sampleStep_fields e (retryStep e (handleClientStep e (buttonStep e s).1).1).1
    unfold ModeInv at h2 ⊢
    rw [hs.1, hs.2.1]
    exact h2
  · simp only [Bool.not_eq_true] at hm
    rw [hm, if_neg (by simp)]
    exact normalTick_inv e _ hinvb hm

theorem inv_reachable (s : SysState) (h : Reachable s) : ModeInv s := by
  induction h with
  | init => simp [ModeInv, initState]
  | step e _ ih => exact loopStep_inv e _ ih

theorem handleClientStep_lastOutcome (e : Env) (s : SysState)
    (h : s.lastOutcome ≠ none) : (handleClientStep e s).1.lastOutcome ≠ none := by
  cases hin : e.inbound with
  | none => simpa [handleClientStep, hin] using h
  | some p =>
    cases p with
    | root => simpa [handleClientStep, hin] using h
    | flush =>
      by_cases hp : (tryFlushBuffer e.netA s.readingBuffer).1 = true
      · simp [handleClientStep, hin, flushHandler, hp]
      · simp only [Bool.not_eq_true] at hp
        simp [handleClientStep, hin, flushHandler, hp]

theorem retryStep_lastOutcome (e : Env) (s : SysState)
    (h : s.lastOutcome ≠ none) : (retryStep e s).1.lastOutcome ≠ none := by
  by_cases ht : retryInterval ≤ usub e.now s.lastRetry
  · by_cases hp : (tryFlushBuffer e.netB s.readingBuffer).1 = true
    · simp [retryStep, ht, hp]
    · simp only [Bool.not_eq_true] at hp
      simp [retryStep, ht, hp]
  · simpa [retryStep, ht] using h

theorem sampleStep_lastOutcome (e : Env) (s : SysState)
    (h : s.lastOutcome ≠ none) : (sampleStep e s).1.lastOutcome ≠ none := by
  by_cases ht : interval ≤ usub e.now s.previousMillis
  · simpa [sampleStep, ht] using h
  · simpa [sampleStep, ht] using h

theorem normalTick_lastOutcome (e : Env) (s : SysState)
    (h : s.lastOutcome ≠ none) : (normalTick e s).1.lastOutcome ≠ none := by
  by_cases ht : interval ≤ usub e.now s.previousMillis
  · by_cases hp : (tryFlushBuffer e.netB
        (s.readingBuffer ++ [⟨e.timestampNow, e.sensorTemp⟩])).1 = true
    · simp [normalTick, ht, hp]
    · simp only [Bool.not_eq_true] at hp
      simp [normalTick, ht, hp]
  · simpa [normalTick, ht] using h

theorem loopStep_lastOutcome (e : Env) (s : SysState)
    (h : s.lastOutcome ≠ none) : (loopStep e s).1.lastOutcome ≠ none := by
  have hb := buttonStep_fields e s
  have hb' : (buttonStep e s).1.lastOutcome ≠ none := by rw [hb.2.1]; exact h
  rw [loopStep_fst]
  by_cases hm : (buttonStep e s).1.fallbackMode = true
  · rw [if_pos hm, fallbackTick_fst]
    exact sampleStep_lastOutcome e _ (retryStep_lastOutcome e _
      (handleClientStep_lastOutcome e _ hb'))
  · simp only [Bool.not_eq_true] at hm
    rw [hm, if_neg (by simp)]
    exact normalTick_lastOutcome e _ hb'

/-- Claim C4 (mode-machine invariant): the initial Mode is Normal; in every
reachable state, Mode = Fallback iff the most recent completed delivery
attempt returned Failure (before the first attempt the Mode is Normal, since
`lastOutcome = none ≠ some false`); and from Fallback the Mode changes back
to Normal in a step only when that step's most recent delivery attempt
returned Success. -/
theorem C4_mode_invariant :
    initState.fallbackMode = false ∧
    (∀ s, Reachable s → (s.fallbackMode = true ↔ s.lastOutcome = some false)) ∧
    (∀ (e : Env) (s : SysState), Reachable s → s.fallbackMode = true →
      (loopStep e s).1.fallbackMode = false →
      (loopStep e s).1.lastOutcome = some true) := by
  refine ⟨rfl, fun s h => inv_reachable s h, ?_⟩
  intro e s hr hf hnorm
  have hinv' := inv_reachable _ (Reachable.step e hr)
  have hlo : s.lastOutcome = some false := (inv_reachable s hr).mp hf
  have hne : (loopStep e s).1.lastOutcome ≠ none :=
    loopStep_lastOutcome e s (by simp [hlo])
  rcases ho : (loopStep e s).1.lastOutcome with _ | b
  · exact absurd ho hne
  · cases b
    · exfalso
      have hm := hinv'.mpr ho
      rw [hnorm] at hm
      cases hm
    · rfl

theorem C4_mode_invariant_witness :
    initState.fallbackMode = false ∧
    (initState.fallbackMode = true ↔ initState.lastOutcome = some false) :=
  ⟨C4_mode_invariant.1, C4_mode_invariant.2.1 initState Reachable.init⟩

/-! ### FIFO / buffer-shape facts -/

theorem handleClientStep_buf (e : Env) (s : SysState) :
    (handleClientStep e s).1.readingBuffer = s.readingBuffer ∨
    (handleClientStep e s).1.readingBuffer = [] := by
  cases hin : e.inbound with
  | none => simp [handleClientStep, hin]
  | some p =>
    cases p with
    | root => simp [handleClientStep, hin]
    | flush =>
      by_cases hp : (tryFlushBuffer e.netA s.readingBuffer).1 = true
      · right
        simp [handleClientStep, hin, flushHandler, hp,
          tryFlush_success_buf e.netA s.readingBuffer hp]
      · left
        simp only [Bool.not_eq_true] at hp
        simp [handleClientStep, hin, flushHandler, hp,
          tryFlush_fail_buf e.netA s.readingBuffer hp]

theorem retryStep_buf (e : Env) (s : SysState) :
    (retryStep e s).1.readingBuffer = s.readingBuffer ∨
    (retryStep e s).1.readingBuffer = [] := by
  by_cases ht : retryInterval ≤ usub e.now s.lastRetry
  · by_cases hp : (tryFlushBuffer e.netB s.readingBuffer).1 = true
    · right
      simp [retryStep, ht, hp, tryFlush_success_buf e.netB s.readingBuffer hp]
    · left
      simp only [Bool.not_eq_true] at hp
      simp [retryStep, ht, hp, tryFlush_fail_buf e.netB s.readingBuffer hp]
  · left; simp [retryStep, ht]

theorem sampleStep_buf (e : Env) (s : SysState) :
    (sampleStep e s).1.readingBuffer = s.readingBuffer ∨
    ∃ r, (sampleStep e s).1.readingBuffer = s.readingBuffer ++ [r] := by
  by_cases ht : interval ≤ usub e.now s.previousMillis
  · exact Or.inr ⟨⟨e.timestampNow, e.sensorTemp⟩, by simp [sampleStep, ht]⟩
  · left; simp [sampleStep, ht]

theorem normalTick_buf (e : Env) (s : SysState) :
    (normalTick e s).1.readingBuffer = s.readingBuffer ∨
    (normalTick e s).1.readingBuffer = [] ∨
    ∃ r, (normalTick e s).1.readingBuffer = s.readingBuffer ++ [r] := by
  by_cases ht : interval ≤ usub e.now s.previousMillis
  · by_cases hp : (tryFlushBuffer e.netB
        (s.readingBuffer ++ [⟨e.timestampNow, e.sensorTemp⟩])).1 = true
    · right; left
      simp [normalTick, ht, hp, tryFlush_success_buf e.netB _ hp]
    · right; right
      simp only [Bool.not_eq_true] at hp
      exact ⟨⟨e.timestampNow, e.sensorTemp⟩,
        by simp [normalTick, ht, hp, tryFlush_fail_buf e.netB _ hp]⟩
  · left; simp [normalTick, ht]

/-- Claim C7 (FIFO invariant): each firing of the Sampler appends exactly one
Reading at the end of the Store, and across one whole `loop()` iteration —
any interleaving of button handling, manual flush, retry flush, periodic
flush and sampling — the Store becomes a (possibly cleared-by-a-successful-
delivery) copy of the old Store with at most one Reading appended at the
end: nothing is reordered, deduplicated or partially removed. -/
theorem C7_fifo (e : Env) (s : SysState) :
    (interval ≤ usub e.now s.previousMillis →
      (sampleStep e s).1.readingBuffer =
        s.readingBuffer ++ [⟨e.timestampNow, e.sensorTemp⟩]) ∧
    ∃ (cleared : Bool) (app : List Reading), app.length ≤ 1 ∧
      (loopStep e s).1.readingBuffer =
        (if cleared then [] else s.readingBuffer) ++ app := by
  constructor
  · intro h
    unfold sampleStep
    rw [if_pos h]
  · have hb := buttonStep_fields e s
    rw [loopStep_fst]
    by_cases hm : (buttonStep e s).1.fallbackMode = true
    · rw [if_pos hm, fallbackTick_fst]
      have h1 : (buttonStep e s).1.readingBuffer = s.readingBuffer := hb.2.2.1
      have h2 := handleClientStep_buf e (buttonStep e s).1
      have h3 := retryStep_buf e (handleClientStep e (buttonStep e s).1).1
      have h4 := sampleStep_buf e (retryStep e (handleClientStep e (buttonStep e s).1).1).1
      rcases h3 with h3 | h3
      · rcases h2 with h2 | h2
        · rcases h4 with h4 | ⟨r, h4⟩
          · exact ⟨false, [], by simp, by rw [h4, h3, h2, h1]; simp⟩
          · exact ⟨false, [r], by simp, by rw [h4, h3, h2, h1]; simp⟩
        · rcases h4 with h4 | ⟨r, h4⟩
          · exact ⟨true, [], by simp, by rw [h4, h3, h2]; simp⟩
          · exact ⟨true, [r], by simp, by rw [h4, h3, h2]; simp⟩
      · rcases h4 with h4 | ⟨r, h4⟩
        · exact ⟨true, [], by simp, by rw [h4, h3]; simp⟩
        · exact ⟨true, [r], by simp, by rw [h4, h3]; simp⟩
    · simp only [Bool.not_eq_true] at hm
      rw [hm, if_neg (by simp)]
      have h1 : (buttonStep e s).1.readingBuffer = s.readingBuffer := hb.2.2.1
      rcases normalTick_buf e (buttonStep e s).1 with h | h | ⟨r, h⟩
      · exact ⟨false, [], by simp, by simp [h, h1]⟩
      · exact ⟨true, [], by simp, by simp [h]⟩
      · exact ⟨false, [r], by simp, by simp [h, h1]⟩

theorem C7_fifo_witness :
    (sampleStep ⟨1000000, false, none, 0, fun _ _ => 200, fun _ _ => 200, 2150, "T0"⟩
        initState).1.readingBuffer = initState.readingBuffer ++ [⟨"T0", 2150⟩] ∧
    ∃ (cleared : Bool) (app : List Reading), app.length ≤ 1 ∧
      (loopStep ⟨1000000, false, none, 0, fun _ _ => 200, fun _ _ => 200, 2150, "T0"⟩
          initState).1.readingBuffer =
        (if cleared then [] else initState.readingBuffer) ++ app :=
  ⟨(C7_fifo ⟨1000000, false, none, 0, fun _ _ => 200, fun _ _ => 200, 2150, "T0"⟩
      initState).1 (by decide),
   (C7_fifo ⟨1000000, false, none, 0, fun _ _ => 200, fun _ _ => 200, 2150, "T0"⟩
      initState).2⟩

/-- Claim C9 (reset strictness and atomicity): the reset operation reports
Success iff the GET to the collector's `/reset` endpoint returns status
exactly 200 (any other status and any transport error report Failure); it
issues exactly one GET — no retry; and the loop's button block, which is the
only caller, changes neither the Store nor the Mode. -/
theorem C9_reset (code : Int) (e : Env) (s : SysState) :
    ((resetDataOnServerT code).1 = true ↔ code = 200) ∧
    (resetDataOnServerT code).2 = [unihikerResetURL] ∧
    (buttonStep e s).1.readingBuffer = s.readingBuffer ∧
    (buttonStep e s).1.fallbackMode = s.fallbackMode := by
  refine ⟨?_, rfl, (buttonStep_fields e s).2.2.1, (buttonStep_fields e s).1⟩
  show (resetDataOnServer code = true) ↔ code = 200
  unfold resetDataOnServer
  by_cases h : (0 : Int) < code
  · simp [h]
  · simp only [h, if_false]
    constructor
    · intro hc; cases hc
    · intro hc; omega

theorem C9_reset_witness :
    (resetDataOnServerT 200).1 = true ∧ (resetDataOnServerT 200).2 = [unihikerResetURL] :=
  ⟨(C9_reset 200 ⟨0, false, none, 0, fun _ _ => 0, fun _ _ => 0, 0, ""⟩ initState).1.mpr
      rfl,
   (C9_reset 200 ⟨0, false, none, 0, fun _ _ => 0, fun _ _ => 0, 0, ""⟩ initState).2.1⟩

/-- Claim C10 (implicit, `/flush` handler): the handler always replies with
HTTP status 200, whether the triggered delivery pass succeeded or failed;
the outcome is distinguished only by the plain-text body; and on failure the
mode field is untouched (Fallback remains active) and the Store is
unchanged. -/
theorem C10_flush_handler (net : Nat → Reading → Int) (s : SysState) :
    (flushHandler net s).1.1 = 200 ∧
    (flushHandler net s).1.2 =
      (if (tryFlushBuffer net s.readingBuffer).1 then
        "Flush succeeded, exiting fallback mode."
       else "Flush failed, still in fallback mode.") ∧
    ((tryFlushBuffer net s.readingBuffer).1 = false →
      (flushHandler net s).2.fallbackMode = s.fallbackMode ∧
      (flushHandler net s).2.readingBuffer = s.readingBuffer) := by
  by_cases hp : (tryFlushBuffer net s.readingBuffer).1 = true
  · refine ⟨?_, ?_, ?_⟩
    · simp [flushHandler, hp]
    · simp [flushHandler, hp]
    · intro hf; rw [hf] at hp; cases hp
  · simp only [Bool.not_eq_true] at hp
    refine ⟨?_, ?_, ?_⟩
    · simp [flushHandler, hp]
    · simp [flushHandler, hp]
    · intro _
      constructor
      · simp [flushHandler, hp]
      · simp [flushHandler, hp, tryFlush_fail_buf net s.readingBuffer hp]

theorem C10_flush_handler_witness :
    (flushHandler (fun _ _ => (-1 : Int))
        ⟨false, 0, true, [⟨"T0", 2150⟩], 0, 0, some false⟩).2.fallbackMode =
      (⟨false, 0, true, [⟨"T0", 2150⟩], 0, 0, some false⟩ : SysState).fallbackMode ∧
    (flushHandler (fun _ _ => (-1 : Int))
        ⟨false, 0, true, [⟨"T0", 2150⟩], 0, 0, some false⟩).2.readingBuffer =
      (⟨false, 0, true, [⟨"T0", 2150⟩], 0, 0, some false⟩ : SysState).readingBuffer :=
  (C10_flush_handler (fun _ _ => (-1 : Int))
      ⟨false, 0, true, [⟨"T0", 2150⟩], 0, 0, some false⟩).2.2 (by decide)

/-! ### Event traces of the fallback branch -/

theorem handleClientStep_events (e : Env) (s : SysState) :
    (handleClientStep e s).2 = [] ∨
    (handleClientStep e s).2 =
      [Event.served (rootHandler s).1 (rootHandler s).2] ∨
    (handleClientStep e s).2 =
      [Event.served (flushHandler e.netA s).1.1 (flushHandler e.netA s).1.2,
       Event.manualAttempt (tryFlushBuffer e.netA s.readingBuffer).1] := by
  cases hin : e.inbound with
  | none => left; simp [handleClientStep, hin]
  | some p =>
    cases p with
    | root => right; left; simp [handleClientStep, hin]
    | flush => right; right; simp [handleClientStep, hin]

theorem retryStep_events_pos (e : Env) (s : SysState)
    (ht : retryInterval ≤ usub e.now s.lastRetry) :
    (retryStep e s).2 = [Event.retryAttempt (tryFlushBuffer e.netB s.readingBuffer).1] := by
  by_cases hp : (tryFlushBuffer e.netB s.readingBuffer).1 = true
  · simp [retryStep, ht, hp]
  · simp only [Bool.not_eq_true] at hp
    simp [retryStep, ht, hp]

theorem retryStep_events_neg (e : Env) (s : SysState)
    (ht : ¬ retryInterval ≤ usub e.now s.lastRetry) :
    (retryStep e s).2 = [] := by
  simp [retryStep, ht]

theorem retryStep_events_shape (e : Env) (s : SysState) :
    (retryStep e s).2 = [] ∨ ∃ b, (retryStep e s).2 = [Event.retryAttempt b] := by
  by_cases ht : retryInterval ≤ usub e.now s.lastRetry
  · right; exact ⟨_, retryStep_events_pos e s ht⟩
  · left; exact retryStep_events_neg e s ht

theorem sampleStep_events_pos (e : Env) (s : SysState)
    (ht : interval ≤ usub e.now s.previousMillis) :
    (sampleStep e s).2 = [Event.sampled ⟨e.timestampNow, e.sensorTemp⟩] := by
  simp [sampleStep, ht]

theorem sampleStep_events_neg (e : Env) (s : SysState)
    (ht : ¬ interval ≤ usub e.now s.previousMillis) :
    (sampleStep e s).2 = [] := by
  simp [sampleStep, ht]

theorem sampleStep_events_shape (e : Env) (s : SysState) :
    (sampleStep e s).2 = [] ∨ ∃ r, (sampleStep e s).2 = [Event.sampled r] := by
  by_cases ht : interval ≤ usub e.now s.previousMillis
  · right; exact ⟨_, sampleStep_events_pos e s ht⟩
  · left; exact sampleStep_events_neg e s ht

theorem fallbackTick_retry_iff (e : Env) (s : SysState) :
    (∃ b, Event.retryAttempt b ∈ (fallbackTick e s).2) ↔
      retryInterval ≤ usub e.now s.lastRetry := by
  have hlr : (handleClientStep e s).1.lastRetry = s.lastRetry :=
    (handleClientStep_fields e s).1
  rw [fallbackTick_snd]
  by_cases ht : retryInterval ≤ usub e.now s.lastRetry
  · rw [retryStep_events_pos e (handleClientStep e s).1 (by rw [hlr]; exact ht)]
    exact iff_of_true
      ⟨(tryFlushBuffer e.netB (handleClientStep e s).1.readingBuffer).1, by simp⟩ ht
  · rw [retryStep_events_neg e (handleClientStep e s).1 (by rw [hlr]; exact ht)]
    refine iff_of_false ?_ ht
    rintro ⟨b, hb⟩
    rcases handleClientStep_events e s with h2 | h2 | h2 <;>
      rcases sampleStep_events_shape e (retryStep e (handleClientStep e s).1).1 with
        hs | ⟨r, hs⟩ <;>
      (rw [h2, hs] at hb; simp at hb)

theorem fallbackTick_sampled_iff (e : Env) (s : SysState) :
    (∃ r, Event.sampled r ∈ (fallbackTick e s).2) ↔
      interval ≤ usub e.now s.previousMillis := by
  have hpm : (retryStep e (handleClientStep e s).1).1.previousMillis = s.previousMillis := by
    rw [retryStep_fields, (handleClientStep_fields e s).2]
  rw [fallbackTick_snd]
  by_cases ht : interval ≤ usub e.now s.previousMillis
  · rw [sampleStep_events_pos e _ (by rw [hpm]; exact ht)]
    exact iff_of_true ⟨⟨e.timestampNow, e.sensorTemp⟩, by simp⟩ ht
  · rw [sampleStep_events_neg e _ (by rw [hpm]; exact ht)]
    refine iff_of_false ?_ ht
    rintro ⟨r, hb⟩
    rcases handleClientStep_events e s with h2 | h2 | h2 <;>
      rcases retryStep_events_shape e (handleClientStep e s).1 with hrr | ⟨b, hrr⟩ <;>
      (rw [h2, hrr] at hb; simp at hb)

theorem fallbackTick_served (e : Env) (s : SysState) (p : ReqPath)
    (hin : e.inbound = some p) :
    ∃ st bd, Event.served st bd ∈ (fallbackTick e s).2 := by
  rw [fallbackTick_snd]
  cases p with
  | root =>
    refine ⟨(rootHandler s).1, (rootHandler s).2, ?_⟩
    have h2 : (handleClientStep e s).2 =
        [Event.served (rootHandler s).1 (rootHandler s).2] := by
      simp [handleClientStep, hin]
    rw [h2]; simp
  | flush =>
    refine ⟨(flushHandler e.netA s).1.1, (flushHandler e.netA s).1.2, ?_⟩
    have h2 : (handleClientStep e s).2 =
        [Event.served (flushHandler e.netA s).1.1 (flushHandler e.netA s).1.2,
         Event.manualAttempt (tryFlushBuffer e.netA s.readingBuffer).1] := by
      simp [handleClientStep, hin]
    rw [h2]; simp

theorem fallbackTick_exit_iff (e : Env) (s : SysState) (hm : s.fallbackMode = true) :
    ((fallbackTick e s).1.fallbackMode = false ↔
      ((e.inbound = some ReqPath.flush ∧ (tryFlushBuffer e.netA s.readingBuffer).1 = true) ∨
       (retryInterval ≤ usub e.now s.lastRetry ∧
        (tryFlushBuffer e.netB (handleClientStep e s).1.readingBuffer).1 = true))) := by
  rw [fallbackTick_fst, (sampleStep_fields e _).1]
  have hlr : (handleClientStep e s).1.lastRetry = s.lastRetry :=
    (handleClientStep_fields e s).1
  by_cases ht : retryInterval ≤ usub e.now s.lastRetry
  · by_cases hp2 : (tryFlushBuffer e.netB (handleClientStep e s).1.readingBuffer).1 = true
    · have hmf : (retryStep e (handleClientStep e s).1).1.fallbackMode = false := by
        simp [retryStep, hlr, ht, hp2]
      rw [hmf]
      exact iff_of_true rfl (Or.inr ⟨ht, hp2⟩)
    · simp only [Bool.not_eq_true] at hp2
      have hmeq : (retryStep e (handleClientStep e s).1).1.fallbackMode =
          (handleClientStep e s).1.fallbackMode := by
        simp [retryStep, hlr, ht, hp2]
      rw [hmeq]
      cases hin : e.inbound with
      | none =>
        have hcm : (handleClientStep e s).1.fallbackMode = true := by
          simp [handleClientStep, hin, hm]
        rw [hcm]
        simp [hin, hp2]
      | some p =>
        cases p with
        | root =>
          have hcm : (handleClientStep e s).1.fallbackMode = true := by
            simp [handleClientStep, hin, hm]
          rw [hcm]
          simp [hin, hp2]
        | flush =>
          by_cases hp1 : (tryFlushBuffer e.netA s.readingBuffer).1 = true
          · exfalso
            have hbuf : (handleClientStep e s).1.readingBuffer = [] := by
              simp [handleClientStep, hin, flushHandler, hp1,
                tryFlush_success_buf e.netA s.readingBuffer hp1]
            rw [hbuf, tryFlush_nil] at hp2
            simp at hp2
          · simp only [Bool.not_eq_true] at hp1
            have hcm : (handleClientStep e s).1.fallbackMode = true := by
              simp [handleClientStep, hin, flushHandler, hp1, hm]
            rw [hcm]
            simp [hin, hp1, hp2]
  · have hmeq : (retryStep e (handleClientStep e s).1).1.fallbackMode =
        (handleClientStep e s).1.fallbackMode := by
      simp [retryStep, hlr, ht]
    rw [hmeq]
    cases hin : e.inbound with
    | none =>
      have hcm : (handleClientStep e s).1.fallbackMode = true := by
        simp [handleClientStep, hin, hm]
      rw [hcm]
      simp [hin, ht]
    | some p =>
      cases p with
      | root =>
        have hcm : (handleClientStep e s).1.fallbackMode = true := by
          simp [handleClientStep, hin, hm]
        rw [hcm]
        simp [hin, ht]
      | flush =>
        by_cases hp1 : (tryFlushBuffer e.netA s.readingBuffer).1 = true
        · have hcm : (handleClientStep e s).1.fallbackMode = false := by
            simp [handleClientStep, hin, flushHandler, hp1]
          rw [hcm]
          simp [hin, hp1, ht]
        · simp only [Bool.not_eq_true] at hp1
          have hcm : (handleClientStep e s).1.fallbackMode = true := by
            simp [handleClientStep, hin, flushHandler, hp1, hm]
          rw [hcm]
          simp [hin, hp1, ht]

/-- Claim C8 (fallback cadence): the source's retry period is the fixed
constant 30000 ms and the sampling period the fixed constant 60000 ms; in
Fallback mode a `loop()` iteration is the button block followed by the
fallback branch (which leaves the two timers as the button block found
them); and in the fallback branch of any Fallback state — after any number
of failed retries, with no retry cap and no backoff growth, since the
threshold is the same constant for every state — a retry delivery attempt
happens iff 30 s have elapsed since `lastRetry`, a sample is appended iff
60 s have elapsed since `previousMillis`, any pending inbound request is
served on this very tick, and the mode returns to Normal iff this tick's
manual or retry delivery attempt succeeded. -/
theorem C8_fallback_cadence :
    retryInterval = 30000 ∧ interval = 60000 ∧
    (∀ (e : Env) (s : SysState), s.fallbackMode = true →
      loopStep e s = ((fallbackTick e (buttonStep e s).1).1,
        (buttonStep e s).2 ++ (fallbackTick e (buttonStep e s).1).2) ∧
      (buttonStep e s).1.fallbackMode = true ∧
      (buttonStep e s).1.lastRetry = s.lastRetry ∧
      (buttonStep e s).1.previousMillis = s.previousMillis) ∧
    (∀ (e : Env) (s : SysState), s.fallbackMode = true →
      ((∃ b, Event.retryAttempt b ∈ (fallbackTick e s).2) ↔
        retryInterval ≤ usub e.now s.lastRetry) ∧
      ((∃ r, Event.sampled r ∈ (fallbackTick e s).2) ↔
        interval ≤ usub e.now s.previousMillis) ∧
      (∀ p, e.inbound = some p → ∃ st bd, Event.served st bd ∈ (fallbackTick e s).2) ∧
      ((fallbackTick e s).1.fallbackMode = false ↔
        ((e.inbound = some ReqPath.flush ∧
          (tryFlushBuffer e.netA s.readingBuffer).1 = true) ∨
         (retryInterval ≤ usub e.now s.lastRetry ∧
          (tryFlushBuffer e.netB (handleClientStep e s).1.readingBuffer).1 = true)))) := by
  refine ⟨rfl, rfl, ?_, ?_⟩
  · intro e s hm
    have hb := buttonStep_fields e s
    have hbm : (buttonStep e s).1.fallbackMode = true := by rw [hb.1]; exact hm
    exact ⟨by simp [loopStep, hbm], hbm, hb.2.2.2.1, hb.2.2.2.2⟩
  · intro e s hm
    exact ⟨fallbackTick_retry_iff e s, fallbackTick_sampled_iff e s,
      fun p hp => fallbackTick_served e s p hp, fallbackTick_exit_iff e s hm⟩

theorem C8_fallback_cadence_witness :
    (∃ b, Event.retryAttempt b ∈
      (fallbackTick ⟨40000, false, none, 0, fun _ _ => 200, fun _ _ => 200, 0, ""⟩
        ⟨false, 0, true, [], 0, 0, some false⟩).2) ↔
      retryInterval ≤ usub 40000 0 :=
  (C8_fallback_cadence.2.2.2
    ⟨40000, false, none, 0, fun _ _ => 200, fun _ _ => 200, 0, ""⟩
    ⟨false, 0, true, [], 0, 0, some false⟩ rfl).1

end TempMate
